import Mathlib

/-!
Shallow embedding of the stevedor VM-provisioning tool.

The repository holds two revisions of the same single-file program:
* `src/main.go` — command-line flags bound to package-level variables; embedded
  here as `run1` and the helpers suffixed `1`.
* `src/unnamed/part_000` — the same workflow with the flags gathered into a
  `vmConfig` struct, plus a NIC step; embedded as `run2` and helpers suffixed `2`.

The hypervisor-management SDK (govmomi) is an external collaborator: every
remote call the program makes is recorded as an `Event`, and an `Env` record of
booleans fixes whether each kind of remote operation succeeds.  The embedding
follows the Go control flow statement by statement: each `if err != nil { exit(err) }`
becomes an early `Except.error` carrying the events issued so far (exit status 1),
and a completed run yields exit status 0 with the full event list.
-/

namespace Stevedor

/-- The file component of Go's `path.Split`: the characters after the last `/`
(the whole string when no `/` occurs, empty for the empty string). -/
def pathSplitFile (s : String) : String :=
  String.mk (s.toList.foldl (fun acc c => if c = '/' then [] else acc ++ [c]) [])

/-- The VirtualMachineConfigSpec fields the program sets before submitting the
create-VM task.  `devices` lists the device types bundled into the spec. -/
structure VMSpec where
  name : String
  guestId : String
  vmPathName : String
  numCPUs : Int
  memoryMB : Int
  devices : List String
  deriving DecidableEq, Repr

/-- One observable interaction of a run.  `upload` records the local source path
and the datastore-relative destination handed to `dss.NewURL`; the attach events
record the datastore-relative path handed to `dss.Path` and whether the platform
accepted the `AddDevice` mutation (`accepted`); `logError` records a non-fatal
`log.Errorf` message. -/
inductive Event where
  | createVM (spec : VMSpec)
  | upload (localPath : String) (destName : String)
  | attachISO (dsRelPath : String) (accepted : Bool)
  | attachDisk (dsRelPath : String) (capacityKB : Int) (accepted : Bool)
  | attachNIC (accepted : Bool)
  | logError (msg : String)
  deriving DecidableEq, Repr

/-- The command-line flags.  `vCpus` and `mem` exist only in the `part_000`
revision (`run1` uses the literals 1 and 1024 instead). -/
structure Config where
  urlFlag : String
  vmName : String
  isoPath : String
  diskPath : String
  dsName : String
  networkName : String
  hostname : String
  persistent : Int
  vCpus : Int
  mem : Int
  deriving DecidableEq, Repr

/-- Outcome of each kind of remote SDK operation (the same outcome applies to
every call of that operation within a run), plus the platform-chosen default
datastore name used when the flag is empty. -/
structure Env where
  urlOk : Bool
  connectOk : Bool
  dcOk : Bool
  dsOk : Bool
  netOk : Bool
  hostOk : Bool
  rpOk : Bool
  scsiOk : Bool
  foldersOk : Bool
  createOk : Bool
  taskOk : Bool
  uploadOk : Bool
  vmDeviceOk : Bool
  diskCtrlOk : Bool
  ideOk : Bool
  cdromOk : Bool
  backingOk : Bool
  ethOk : Bool
  addDeviceOk : Bool
  defaultDs : String
  deriving DecidableEq, Repr

/-- Final state of a run: the process exit status and the events issued. -/
structure Outcome where
  exitCode : Nat
  events : List Event
  deriving DecidableEq, Repr

/-- A step either continues with the events so far, or aborts the process
(exit status 1) with the events issued up to the failure. -/
abbrev Step := Except (List Event) (List Event)

/-- main.go line 84: an empty `-vmname` flag is replaced by "default" before
the spec is built (part_000 has no such defaulting). -/
def effName1 (cfg : Config) : String :=
  if cfg.vmName = "" then "default" else cfg.vmName

/-- `DatastoreOrDefault`: the resolved datastore's name. -/
def resolvedDs (cfg : Config) (env : Env) : String :=
  if cfg.dsName = "" then env.defaultDs else cfg.dsName

/-- The create-VM spec built by main.go: literal 1 vCPU and 1024 MB, one
paravirtual SCSI controller appended to DeviceChange. -/
def spec1 (cfg : Config) (env : Env) : VMSpec :=
  { name := effName1 cfg
    guestId := "otherLinux64Guest"
    vmPathName := "[" ++ resolvedDs cfg env ++ "]"
    numCPUs := 1
    memoryMB := 1024
    devices := ["pvscsi"] }

/-- The create-VM spec built by part_000: vCPUs and memory from the flags. -/
def spec2 (cfg : Config) (env : Env) : VMSpec :=
  { name := cfg.vmName
    guestId := "otherLinux64Guest"
    vmPathName := "[" ++ resolvedDs cfg env ++ "]"
    numCPUs := cfg.vCpus
    memoryMB := cfg.mem
    devices := ["pvscsi"] }

/-- main.go `uploadFile`: splits the passed local path, aborts via `log.Fatalf`
(exit status 1, no remote call) when it is empty, otherwise uploads it to
`<vmName>/<fileName>` on the datastore, exiting on an upload error. -/
def uploadFile1 (vmEff localFilePath : String) (env : Env) (tr : List Event) : Step :=
  if localFilePath = "" then
    Except.error tr
  else
    let ev := Event.upload localFilePath (vmEff ++ "/" ++ pathSplitFile localFilePath)
    if env.uploadOk then Except.ok (tr ++ [ev]) else Except.error (tr ++ [ev])

/-- part_000 `uploadFile`: identical except that it always reads
`newVM.isoPath`, whichever branch calls it. -/
def uploadFile2 (cfg : Config) (env : Env) (tr : List Event) : Step :=
  if cfg.isoPath = "" then
    Except.error tr
  else
    let ev := Event.upload cfg.isoPath (cfg.vmName ++ "/" ++ pathSplitFile cfg.isoPath)
    if env.uploadOk then Except.ok (tr ++ [ev]) else Except.error (tr ++ [ev])

/-- main.go `addVMDK`: device list, SCSI disk controller, disk at
`<vmName>/<vmdkName>` with CapacityInKB = sizeInMB * 1024.  The error returned
by `vm.AddDevice` is discarded: the source re-tests the stale `err` variable,
which is nil at that point, so a rejected mutation does not exit. -/
def addVMDK1 (vmEff vmdkName : String) (sizeInMB : Int) (env : Env) (tr : List Event) : Step :=
  if env.vmDeviceOk = false then Except.error tr
  else if env.diskCtrlOk = false then Except.error tr
  else Except.ok (tr ++ [Event.attachDisk (vmEff ++ "/" ++ vmdkName) (sizeInMB * 1024) env.addDeviceOk])

/-- part_000 `addVMDK`: the disk name is always derived from `newVM.diskPath`
and the capacity is always `*newVM.persistent * 1024`, for every call site.
The `vm.AddDevice` error is discarded exactly as in `addVMDK1`. -/
def addVMDK2 (cfg : Config) (env : Env) (tr : List Event) : Step :=
  if env.vmDeviceOk = false then Except.error tr
  else if env.diskCtrlOk = false then Except.error tr
  else Except.ok (tr ++ [Event.attachDisk (cfg.vmName ++ "/" ++ pathSplitFile cfg.diskPath)
      (cfg.persistent * 1024) env.addDeviceOk])

/-- main.go `addISO`: device list, IDE controller, CD-ROM, then inserts the ISO
at the fixed datastore path `<vmName>/linuxkit.iso` (never the uploaded file's
name).  The `vm.AddDevice` error is discarded as in `addVMDK1`. -/
def addISO1 (vmEff : String) (env : Env) (tr : List Event) : Step :=
  if env.vmDeviceOk = false then Except.error tr
  else if env.ideOk = false then Except.error tr
  else if env.cdromOk = false then Except.error tr
  else Except.ok (tr ++ [Event.attachISO (vmEff ++ "/" ++ "linuxkit.iso") env.addDeviceOk])

/-- part_000 `addISO`: same as `addISO1` with the name read from the struct. -/
def addISO2 (cfg : Config) (env : Env) (tr : List Event) : Step :=
  if env.vmDeviceOk = false then Except.error tr
  else if env.ideOk = false then Except.error tr
  else if env.cdromOk = false then Except.error tr
  else Except.ok (tr ++ [Event.attachISO (cfg.vmName ++ "/" ++ "linuxkit.iso") env.addDeviceOk])

/-- part_000 `addNIC`: backing info, vmxnet3 card, then `AddDevice` with the
error again discarded. -/
def addNIC2 (env : Env) (tr : List Event) : Step :=
  if env.backingOk = false then Except.error tr
  else if env.ethOk = false then Except.error tr
  else Except.ok (tr ++ [Event.attachNIC env.addDeviceOk])

/-- The non-fatal message logged when the persistent disk name collides. -/
def collisionMsg : String :=
  "Can not create persisten disk with identical name to existing VMDK disk"

/-- main.go lines 125-128: the ISO branch. -/
def isoStep1 (cfg : Config) (env : Env) (tr : List Event) : Step :=
  if cfg.isoPath = "" then Except.ok tr
  else
    match uploadFile1 (effName1 cfg) cfg.isoPath env tr with
    | Except.error e => Except.error e
    | Except.ok tr2 => addISO1 (effName1 cfg) env tr2

/-- main.go lines 130-134: the disk branch; the attached name is the final
segment of the disk path and the size the literal 1024 MB. -/
def diskStep1 (cfg : Config) (env : Env) (tr : List Event) : Step :=
  if cfg.diskPath = "" then Except.ok tr
  else
    match uploadFile1 (effName1 cfg) cfg.diskPath env tr with
    | Except.error e => Except.error e
    | Except.ok tr2 => addVMDK1 (effName1 cfg) (pathSplitFile cfg.diskPath) 1024 env tr2

/-- main.go lines 136-142: the persistent branch.  The collision test compares
the whole `-disk` flag string with "linuxkit.vmdk". -/
def persistStep1 (cfg : Config) (env : Env) (tr : List Event) : Step :=
  if cfg.persistent = 0 then Except.ok tr
  else if cfg.diskPath = "linuxkit.vmdk" then Except.ok (tr ++ [Event.logError collisionMsg])
  else addVMDK1 (effName1 cfg) "linuxkit.vmdk" cfg.persistent env tr

/-- part_000 lines 139-142: the ISO branch. -/
def isoStep2 (cfg : Config) (env : Env) (tr : List Event) : Step :=
  if cfg.isoPath = "" then Except.ok tr
  else
    match uploadFile2 cfg env tr with
    | Except.error e => Except.error e
    | Except.ok tr2 => addISO2 cfg env tr2

/-- part_000 lines 144-147: the disk branch (note: `uploadFile` still reads the
ISO path). -/
def diskStep2 (cfg : Config) (env : Env) (tr : List Event) : Step :=
  if cfg.diskPath = "" then Except.ok tr
  else
    match uploadFile2 cfg env tr with
    | Except.error e => Except.error e
    | Except.ok tr2 => addVMDK2 cfg env tr2

/-- part_000 lines 149-155: the persistent branch, same collision test as
`persistStep1`, calling the struct-driven `addVMDK2`. -/
def persistStep2 (cfg : Config) (env : Env) (tr : List Event) : Step :=
  if cfg.persistent = 0 then Except.ok tr
  else if cfg.diskPath = "linuxkit.vmdk" then Except.ok (tr ++ [Event.logError collisionMsg])
  else addVMDK2 cfg env tr

/-- part_000 lines 157-159: the NIC branch. -/
def netStep2 (cfg : Config) (env : Env) (tr : List Event) : Step :=
  if cfg.networkName = "" then Except.ok tr
  else addNIC2 env tr

/-- The whole main.go run: URL parse, connect, datacenter, datastore, host,
resource pool, SCSI controller, folders, create-VM task submission, wait for
the task, then the ISO / disk / persistent branches. -/
def run1 (cfg : Config) (env : Env) : Outcome :=
  if env.urlOk = false then ⟨1, []⟩
  else if env.connectOk = false then ⟨1, []⟩
  else if env.dcOk = false then ⟨1, []⟩
  else if env.dsOk = false then ⟨1, []⟩
  else if env.hostOk = false then ⟨1, []⟩
  else if env.rpOk = false then ⟨1, []⟩
  else if env.scsiOk = false then ⟨1, []⟩
  else if env.foldersOk = false then ⟨1, []⟩
  else
    let tr0 := [Event.createVM (spec1 cfg env)]
    if env.createOk = false then ⟨1, tr0⟩
    else if env.taskOk = false then ⟨1, tr0⟩
    else
      match isoStep1 cfg env tr0 with
      | Except.error e => ⟨1, e⟩
      | Except.ok tr1 =>
        match diskStep1 cfg env tr1 with
        | Except.error e => ⟨1, e⟩
        | Except.ok tr2 =>
          match persistStep1 cfg env tr2 with
          | Except.error e => ⟨1, e⟩
          | Except.ok tr3 => ⟨0, tr3⟩

/-- The whole part_000 run: as `run1` but with the network resolved after the
datastore, no vm-name defaulting, flag-driven vCPU/memory, and a final NIC
branch. -/
def run2 (cfg : Config) (env : Env) : Outcome :=
  if env.urlOk = false then ⟨1, []⟩
  else if env.connectOk = false then ⟨1, []⟩
  else if env.dcOk = false then ⟨1, []⟩
  else if env.dsOk = false then ⟨1, []⟩
  else if env.netOk = false then ⟨1, []⟩
  else if env.hostOk = false then ⟨1, []⟩
  else if env.rpOk = false then ⟨1, []⟩
  else if env.scsiOk = false then ⟨1, []⟩
  else if env.foldersOk = false then ⟨1, []⟩
  else
    let tr0 := [Event.createVM (spec2 cfg env)]
    if env.createOk = false then ⟨1, tr0⟩
    else if env.taskOk = false then ⟨1, tr0⟩
    else
      match isoStep2 cfg env tr0 with
      | Except.error e => ⟨1, e⟩
      | Except.ok tr1 =>
        match diskStep2 cfg env tr1 with
        | Except.error e => ⟨1, e⟩
        | Except.ok tr2 =>
          match persistStep2 cfg env tr2 with
          | Except.error e => ⟨1, e⟩
          | Except.ok tr3 =>
            match netStep2 cfg env tr3 with
            | Except.error e => ⟨1, e⟩
            | Except.ok tr4 => ⟨0, tr4⟩

/-- Event classifiers and trace projections used by the theorems. -/
def Event.isUpload : Event → Bool
  | .upload _ _ => true
  | _ => false

def Event.isAttachISO : Event → Bool
  | .attachISO _ _ => true
  | _ => false

def Event.isAttachDisk : Event → Bool
  | .attachDisk _ _ _ => true
  | _ => false

def Event.isAttach : Event → Bool
  | .attachISO _ _ => true
  | .attachDisk _ _ _ => true
  | .attachNIC _ => true
  | _ => false

def Event.isTask : Event → Bool
  | .createVM _ => true
  | _ => false

/-- How many events of the trace satisfy `p`. -/
def countEv (p : Event → Bool) (tr : List Event) : Nat :=
  (tr.filter p).length

/-- The local source paths of the upload events, in order. -/
def uploadSrcs (tr : List Event) : List String :=
  tr.filterMap fun e => match e with
    | Event.upload l _ => some l
    | _ => none

/-- The destination names of the upload events, in order. -/
def uploadDests (tr : List Event) : List String :=
  tr.filterMap fun e => match e with
    | Event.upload _ d => some d
    | _ => none

/-- The datastore-relative paths of the CD-ROM attach events, in order. -/
def isoAttachPaths (tr : List Event) : List String :=
  tr.filterMap fun e => match e with
    | Event.attachISO p _ => some p
    | _ => none

/-- (path, capacity) of the disk attach events, in order. -/
def diskAttaches (tr : List Event) : List (String × Int) :=
  tr.filterMap fun e => match e with
    | Event.attachDisk p c _ => some (p, c)
    | _ => none

/-- Every remote operation succeeds. -/
def Env.allOk (e : Env) : Prop :=
  e.urlOk ∧ e.connectOk ∧ e.dcOk ∧ e.dsOk ∧ e.netOk ∧ e.hostOk ∧ e.rpOk ∧
  e.scsiOk ∧ e.foldersOk ∧ e.createOk ∧ e.taskOk ∧ e.uploadOk ∧
  e.vmDeviceOk ∧ e.diskCtrlOk ∧ e.ideOk ∧ e.cdromOk ∧ e.backingOk ∧ e.ethOk ∧
  e.addDeviceOk

instance (e : Env) : Decidable e.allOk := by
  unfold Env.allOk
  infer_instance

/-- Every operation up to and including the submission of the create-VM task
succeeds (says nothing about the task's own result or later operations). -/
def Env.preOk (e : Env) : Prop :=
  e.urlOk ∧ e.connectOk ∧ e.dcOk ∧ e.dsOk ∧ e.netOk ∧ e.hostOk ∧ e.rpOk ∧
  e.scsiOk ∧ e.foldersOk ∧ e.createOk

instance (e : Env) : Decidable e.preOk := by
  unfold Env.preOk
  infer_instance

/-- An environment in which everything succeeds. -/
def okEnv : Env :=
  { urlOk := true, connectOk := true, dcOk := true, dsOk := true, netOk := true
    hostOk := true, rpOk := true, scsiOk := true, foldersOk := true
    createOk := true, taskOk := true, uploadOk := true, vmDeviceOk := true
    diskCtrlOk := true, ideOk := true, cdromOk := true, backingOk := true
    ethOk := true, addDeviceOk := true, defaultDs := "datastore1" }

/-- Spec §8 scenario A: name "vm1", ISO "/tmp/a.iso", datastore "ds1". -/
def cfgA : Config :=
  { urlFlag := "https://u:p@h/sdk", vmName := "vm1", isoPath := "/tmp/a.iso"
    diskPath := "", dsName := "ds1", networkName := "", hostname := ""
    persistent := 0, vCpus := 1, mem := 1024 }

/-- Spec §8 scenario B: name "vm2", disk "/tmp/d.vmdk", persistent size 2048. -/
def cfgB : Config :=
  { urlFlag := "https://u:p@h/sdk", vmName := "vm2", isoPath := ""
    diskPath := "/tmp/d.vmdk", dsName := "ds1", networkName := "", hostname := ""
    persistent := 2048, vCpus := 1, mem := 1024 }

/-- A disk path whose final segment is "linuxkit.vmdk" but which, as a whole
string, differs from "linuxkit.vmdk". -/
def cfgC : Config :=
  { urlFlag := "https://u:p@h/sdk", vmName := "vm3", isoPath := ""
    diskPath := "/tmp/linuxkit.vmdk", dsName := "ds1", networkName := ""
    hostname := "", persistent := 2048, vCpus := 1, mem := 1024 }

/-- No ISO, no disk, no network — but a nonzero persistent size. -/
def cfgP : Config :=
  { urlFlag := "https://u:p@h/sdk", vmName := "vm4", isoPath := ""
    diskPath := "", dsName := "ds1", networkName := "", hostname := ""
    persistent := 2048, vCpus := 1, mem := 1024 }

/-- An environment in which the platform rejects every AddDevice mutation. -/
def envRejectAdd : Env :=
  { okEnv with addDeviceOk := false }

/-- An environment in which the create-VM task reports failure (everything up
to its submission succeeds). -/
def envTaskFail : Env :=
  { okEnv with taskOk := false }

/-- `pathSplitFile` of the empty string is empty. -/
theorem pathSplitFile_empty : pathSplitFile "" = "" := rfl

/-- Claim C2, counterexample: on the scenario-A request (name "vm1", ISO
"/tmp/a.iso", datastore "ds1") the upload goes to "vm1/a.iso", but the single
CD-ROM attach inserts the fixed path "vm1/linuxkit.iso", which does not mirror
the uploaded name. -/
theorem iso_attach_name_mismatch :
    uploadDests (run1 cfgA okEnv).events = ["vm1/a.iso"] ∧
    isoAttachPaths (run1 cfgA okEnv).events = ["vm1/linuxkit.iso"] ∧
    ("vm1/linuxkit.iso" : String) ≠ "vm1/a.iso" := by
  decide

/-- Claim C2 as amended: on the scenario-A request, both revisions upload the
ISO to "vm1/a.iso" and then perform exactly one CD-ROM attach, but the attach
inserts the fixed internal datastore path "vm1/linuxkit.iso" rather than the
uploaded file's path. -/
theorem iso_attach_fixed_name :
    (run1 cfgA okEnv).events =
      [Event.createVM (spec1 cfgA okEnv),
       Event.upload "/tmp/a.iso" "vm1/a.iso",
       Event.attachISO "vm1/linuxkit.iso" true] ∧
    (run2 cfgA okEnv).events =
      [Event.createVM (spec2 cfgA okEnv),
       Event.upload "/tmp/a.iso" "vm1/a.iso",
       Event.attachISO "vm1/linuxkit.iso" true] := by
  decide

/-- Claim C3, code-bug evaluation: with disk path "/tmp/linuxkit.vmdk" and
persistent size 2048 the derived disk name equals the persistent target name
"linuxkit.vmdk", yet main.go issues two disk-attach calls with the identical
destination path — the collision test compares the whole flag string, not the
derived final segment, against "linuxkit.vmdk". -/
theorem persistent_collision_missed :
    pathSplitFile cfgC.diskPath = "linuxkit.vmdk" ∧
    diskAttaches (run1 cfgC okEnv).events =
      [("vm3/linuxkit.vmdk", 1024 * 1024), ("vm3/linuxkit.vmdk", 2048 * 1024)] ∧
    countEv Event.isAttachDisk (run1 cfgC okEnv).events = 2 := by
  decide

/-- Claim C5: when every step up to the create-VM task submission succeeds but
the remote task reports failure, both revisions exit with status 1 having
issued no upload call and no device-attach call. -/
theorem task_failure_aborts (cfg : Config) (env : Env)
    (hpre : env.preOk) (htask : env.taskOk = false) :
    (run1 cfg env).exitCode = 1 ∧
    countEv Event.isUpload (run1 cfg env).events = 0 ∧
    countEv Event.isAttach (run1 cfg env).events = 0 ∧
    (run2 cfg env).exitCode = 1 ∧
    countEv Event.isUpload (run2 cfg env).events = 0 ∧
    countEv Event.isAttach (run2 cfg env).events = 0 := by
  obtain ⟨h1, h2, h3, h4, h5, h6, h7, h8, h9, h10⟩ := hpre
  simp [run1, run2, countEv, Event.isUpload, Event.isAttach,
        h1, h2, h3, h4, h5, h6, h7, h8, h9, h10, htask]

/-- Witness for C5 at a concrete request and environment. -/
theorem task_failure_aborts_witness :
    (run1 cfgA envTaskFail).exitCode = 1 ∧
    countEv Event.isUpload (run1 cfgA envTaskFail).events = 0 ∧
    countEv Event.isAttach (run1 cfgA envTaskFail).events = 0 ∧
    (run2 cfgA envTaskFail).exitCode = 1 ∧
    countEv Event.isUpload (run2 cfgA envTaskFail).events = 0 ∧
    countEv Event.isAttach (run2 cfgA envTaskFail).events = 0 :=
  task_failure_aborts cfgA envTaskFail (by decide) (by decide)

/-- Claim C6: called on an empty local file path, `uploadFile` of either
revision aborts (exit status 1) without issuing any remote call — in
particular, a part_000 run that reaches the disk branch with an empty ISO path
exits with status 1 and an upload-free trace. -/
theorem upload_empty_path_fatal (vmEff : String) (env : Env) (tr : List Event)
    (cfg : Config) (hiso : cfg.isoPath = "") (hdisk : cfg.diskPath ≠ "")
    (hok : env.allOk) :
    uploadFile1 vmEff "" env tr = Except.error tr ∧
    uploadFile2 cfg env tr = Except.error tr ∧
    (run2 cfg env).exitCode = 1 ∧
    countEv Event.isUpload (run2 cfg env).events = 0 := by
  obtain ⟨e1, e2, e3, e4, e5, e6, e7, e8, e9, e10, e11, e12, e13, e14, e15,
    e16, e17, e18, e19⟩ := hok
  refine ⟨by simp [uploadFile1], by simp [uploadFile2, hiso], ?_, ?_⟩ <;>
    simp [run2, isoStep2, diskStep2, uploadFile2, countEv, Event.isUpload,
          hiso, hdisk, e1, e2, e3, e4, e5, e6, e7, e8, e9, e10, e11, e12]

/-- Witness for C6: the scenario-B request has an empty ISO path and a
non-empty disk path. -/
theorem upload_empty_path_fatal_witness :
    uploadFile1 "vm1" "" okEnv [] = Except.error [] ∧
    uploadFile2 cfgB okEnv [] = Except.error [] ∧
    (run2 cfgB okEnv).exitCode = 1 ∧
    countEv Event.isUpload (run2 cfgB okEnv).events = 0 :=
  upload_empty_path_fatal "vm1" okEnv [] cfgB (by decide) (by decide) (by decide)

/-- Claim C7, code-bug evaluation: on the scenario-A request in an environment
where the platform rejects the AddDevice mutation, the run still exits with
status 0 — the source re-tests a stale nil `err` after `vm.AddDevice`, so a
device-attach failure is silently ignored instead of being fatal. -/
theorem adddevice_error_ignored :
    (run1 cfgA envRejectAdd).exitCode = 0 ∧
    (run1 cfgA envRejectAdd).events =
      [Event.createVM (spec1 cfgA envRejectAdd),
       Event.upload "/tmp/a.iso" "vm1/a.iso",
       Event.attachISO "vm1/linuxkit.iso" false] ∧
    (run2 cfgA envRejectAdd).exitCode = 0 := by
  decide

/-- Claim C8, counterexample: a request with no ISO, no disk and no network but
a nonzero persistent size still triggers one device-attach call after VM
creation, in both revisions. -/
theorem bare_request_attach_counter :
    countEv Event.isAttach (run1 cfgP okEnv).events = 1 ∧
    countEv Event.isAttach (run2 cfgP okEnv).events = 1 ∧
    (1 : Nat) ≠ 0 := by
  decide

/-- Scenario A with a disk path as well: both ISO and disk flags set. -/
def cfgAB : Config :=
  { urlFlag := "https://u:p@h/sdk", vmName := "vm1", isoPath := "/tmp/a.iso"
    diskPath := "/tmp/d.vmdk", dsName := "ds1", networkName := "", hostname := ""
    persistent := 0, vCpus := 1, mem := 1024 }

/-- A request with no ISO, no disk, no network and zero persistent size. -/
def cfgBare : Config :=
  { urlFlag := "https://u:p@h/sdk", vmName := "vm5", isoPath := ""
    diskPath := "", dsName := "ds1", networkName := "", hostname := ""
    persistent := 0, vCpus := 1, mem := 1024 }

/-- Claim C1: whenever the ISO flag is non-empty (and the environment
cooperates), both revisions upload the ISO to `<vmName>/<final segment>` and
then attach the CD-ROM exactly once, immediately after that upload. -/
theorem iso_upload_then_attach (cfg : Config) (env : Env)
    (hok : env.allOk) (hiso : cfg.isoPath ≠ "") :
    ((run1 cfg env).events.take 3 =
      [Event.createVM (spec1 cfg env),
       Event.upload cfg.isoPath (effName1 cfg ++ "/" ++ pathSplitFile cfg.isoPath),
       Event.attachISO (effName1 cfg ++ "/" ++ "linuxkit.iso") true] ∧
     countEv Event.isAttachISO (run1 cfg env).events = 1) ∧
    ((run2 cfg env).events.take 3 =
      [Event.createVM (spec2 cfg env),
       Event.upload cfg.isoPath (cfg.vmName ++ "/" ++ pathSplitFile cfg.isoPath),
       Event.attachISO (cfg.vmName ++ "/" ++ "linuxkit.iso") true] ∧
     countEv Event.isAttachISO (run2 cfg env).events = 1) := by
  obtain ⟨e1, e2, e3, e4, e5, e6, e7, e8, e9, e10, e11, e12, e13, e14, e15,
    e16, e17, e18, e19⟩ := hok
  constructor
  · by_cases hd : cfg.diskPath = "" <;> by_cases hp : cfg.persistent = 0 <;>
      by_cases hl : cfg.diskPath = "linuxkit.vmdk" <;>
      simp_all [run1, isoStep1, diskStep1, persistStep1, uploadFile1, addISO1,
        addVMDK1, countEv, Event.isAttachISO]
  · by_cases hd : cfg.diskPath = "" <;> by_cases hp : cfg.persistent = 0 <;>
      by_cases hl : cfg.diskPath = "linuxkit.vmdk" <;>
      by_cases hn : cfg.networkName = "" <;>
      simp_all [run2, isoStep2, diskStep2, persistStep2, netStep2, uploadFile2,
        addISO2, addVMDK2, addNIC2, countEv, Event.isAttachISO]

/-- Witness for C1 at the scenario-A request. -/
theorem iso_upload_then_attach_witness :
    ((run1 cfgA okEnv).events.take 3 =
      [Event.createVM (spec1 cfgA okEnv),
       Event.upload cfgA.isoPath (effName1 cfgA ++ "/" ++ pathSplitFile cfgA.isoPath),
       Event.attachISO (effName1 cfgA ++ "/" ++ "linuxkit.iso") true] ∧
     countEv Event.isAttachISO (run1 cfgA okEnv).events = 1) ∧
    ((run2 cfgA okEnv).events.take 3 =
      [Event.createVM (spec2 cfgA okEnv),
       Event.upload cfgA.isoPath (cfgA.vmName ++ "/" ++ pathSplitFile cfgA.isoPath),
       Event.attachISO (cfgA.vmName ++ "/" ++ "linuxkit.iso") true] ∧
     countEv Event.isAttachISO (run2 cfgA okEnv).events = 1) :=
  iso_upload_then_attach cfgA okEnv (by decide) (by decide)

/-- Claim C4: a main.go disk-attach sets CapacityInKB to exactly sizeInMB *
1024, a part_000 disk-attach to persistent * 1024 (its size argument); on the
scenario-B request main.go issues two disk-attach calls with capacities
1024 * 1024 and 2048 * 1024 KB and distinct destination names. -/
theorem disk_capacity_kb (vmEff vmdkName : String) (sizeInMB : Int)
    (tr : List Event) (cfg : Config) :
    addVMDK1 vmEff vmdkName sizeInMB okEnv tr =
      Except.ok (tr ++ [Event.attachDisk (vmEff ++ "/" ++ vmdkName)
        (sizeInMB * 1024) true]) ∧
    addVMDK2 cfg okEnv tr =
      Except.ok (tr ++ [Event.attachDisk (cfg.vmName ++ "/" ++ pathSplitFile cfg.diskPath)
        (cfg.persistent * 1024) true]) ∧
    diskAttaches (run1 cfgB okEnv).events =
      [("vm2/d.vmdk", 1024 * 1024), ("vm2/linuxkit.vmdk", 2048 * 1024)] ∧
    ("vm2/d.vmdk" : String) ≠ "vm2/linuxkit.vmdk" := by
  refine ⟨rfl, rfl, by decide, by decide⟩

/-- Claim C8 as amended: a request with no ISO, no disk, no network and zero
persistent size performs exactly one task submission — the create-VM spec
carrying the single pvscsi controller — and no device-attach call afterwards,
in both revisions. -/
theorem bare_request_single_task (cfg : Config) (env : Env) (hok : env.allOk)
    (hiso : cfg.isoPath = "") (hdisk : cfg.diskPath = "")
    (hnet : cfg.networkName = "") (hper : cfg.persistent = 0) :
    run1 cfg env = ⟨0, [Event.createVM (spec1 cfg env)]⟩ ∧
    run2 cfg env = ⟨0, [Event.createVM (spec2 cfg env)]⟩ ∧
    (spec1 cfg env).devices = ["pvscsi"] ∧
    (spec2 cfg env).devices = ["pvscsi"] ∧
    countEv Event.isTask (run1 cfg env).events = 1 ∧
    countEv Event.isAttach (run1 cfg env).events = 0 ∧
    countEv Event.isTask (run2 cfg env).events = 1 ∧
    countEv Event.isAttach (run2 cfg env).events = 0 := by
  obtain ⟨e1, e2, e3, e4, e5, e6, e7, e8, e9, e10, e11, e12, e13, e14, e15,
    e16, e17, e18, e19⟩ := hok
  simp [run1, run2, isoStep1, diskStep1, persistStep1, isoStep2, diskStep2,
    persistStep2, netStep2, spec1, spec2, countEv, Event.isTask, Event.isAttach,
    hiso, hdisk, hnet, hper, e1, e2, e3, e4, e5, e6, e7, e8, e9, e10, e11, e12,
    e13, e14, e15, e16, e17, e18, e19]

/-- Witness for C8's amended claim at a concrete bare request. -/
theorem bare_request_single_task_witness :
    run1 cfgBare okEnv = ⟨0, [Event.createVM (spec1 cfgBare okEnv)]⟩ ∧
    run2 cfgBare okEnv = ⟨0, [Event.createVM (spec2 cfgBare okEnv)]⟩ ∧
    (spec1 cfgBare okEnv).devices = ["pvscsi"] ∧
    (spec2 cfgBare okEnv).devices = ["pvscsi"] ∧
    countEv Event.isTask (run1 cfgBare okEnv).events = 1 ∧
    countEv Event.isAttach (run1 cfgBare okEnv).events = 0 ∧
    countEv Event.isTask (run2 cfgBare okEnv).events = 1 ∧
    countEv Event.isAttach (run2 cfgBare okEnv).events = 0 :=
  bare_request_single_task cfgBare okEnv (by decide) (by decide) (by decide)
    (by decide) (by decide)

/-- Claim C9: in the part_000 revision, every upload of a run with both flags
set transfers the ISO path — the ISO is uploaded twice and the disk image file
is never uploaded. -/
theorem disk_branch_uploads_iso (cfg : Config) (env : Env) (hok : env.allOk)
    (hiso : cfg.isoPath ≠ "") (hdisk : cfg.diskPath ≠ "") :
    uploadSrcs (run2 cfg env).events = [cfg.isoPath, cfg.isoPath] ∧
    (cfg.diskPath ≠ cfg.isoPath →
      cfg.diskPath ∉ uploadSrcs (run2 cfg env).events) := by
  obtain ⟨e1, e2, e3, e4, e5, e6, e7, e8, e9, e10, e11, e12, e13, e14, e15,
    e16, e17, e18, e19⟩ := hok
  have h1 : uploadSrcs (run2 cfg env).events = [cfg.isoPath, cfg.isoPath] := by
    by_cases hp : cfg.persistent = 0 <;>
      by_cases hl : cfg.diskPath = "linuxkit.vmdk" <;>
      by_cases hn : cfg.networkName = "" <;>
      simp_all [run2, isoStep2, diskStep2, persistStep2, netStep2, uploadFile2,
        addISO2, addVMDK2, addNIC2, uploadSrcs]
  refine ⟨h1, fun hne => ?_⟩
  rw [h1]
  simp [hne]

/-- Witness for C9 with both an ISO and a distinct disk path. -/
theorem disk_branch_uploads_iso_witness :
    uploadSrcs (run2 cfgAB okEnv).events = [cfgAB.isoPath, cfgAB.isoPath] ∧
    cfgAB.diskPath ∉ uploadSrcs (run2 cfgAB okEnv).events :=
  ⟨(disk_branch_uploads_iso cfgAB okEnv (by decide) (by decide) (by decide)).1,
   (disk_branch_uploads_iso cfgAB okEnv (by decide) (by decide) (by decide)).2
     (by decide)⟩

/-- Claim C10: a nonzero persistent size with an empty disk path still attaches
the persistent disk — main.go under the name "linuxkit.vmdk", part_000 under
the name derived from splitting the empty disk path (the bare "<vmName>/"). -/
theorem persistent_without_disk (cfg : Config) (env : Env) (hok : env.allOk)
    (hper : cfg.persistent ≠ 0) (hdisk : cfg.diskPath = "") :
    diskAttaches (run1 cfg env).events =
      [(effName1 cfg ++ "/" ++ "linuxkit.vmdk", cfg.persistent * 1024)] ∧
    diskAttaches (run2 cfg env).events =
      [(cfg.vmName ++ "/", cfg.persistent * 1024)] := by
  obtain ⟨e1, e2, e3, e4, e5, e6, e7, e8, e9, e10, e11, e12, e13, e14, e15,
    e16, e17, e18, e19⟩ := hok
  constructor
  · by_cases hi : cfg.isoPath = "" <;>
      simp_all [run1, isoStep1, diskStep1, persistStep1, uploadFile1, addISO1,
        addVMDK1, diskAttaches]
  · by_cases hi : cfg.isoPath = "" <;> by_cases hn : cfg.networkName = "" <;>
      simp_all [run2, isoStep2, diskStep2, persistStep2, netStep2, uploadFile2,
        addISO2, addVMDK2, addNIC2, diskAttaches, pathSplitFile_empty,
        String.append_empty]

/-- Witness for C10 at the persistent-only request. -/
theorem persistent_without_disk_witness :
    diskAttaches (run1 cfgP okEnv).events =
      [(effName1 cfgP ++ "/" ++ "linuxkit.vmdk", cfgP.persistent * 1024)] ∧
    diskAttaches (run2 cfgP okEnv).events =
      [(cfgP.vmName ++ "/", cfgP.persistent * 1024)] :=
  persistent_without_disk cfgP okEnv (by decide) (by decide) (by decide)

end Stevedor
